import Mathlib

/-!
Verification of the orchestration layer of the Alternative-News-Source
repository (`app.py` and `streamlit_app.py`).

Both front-ends call four operations of the `processor` module
(`fetch_article_text`, `analyze_sentiment_from_text`,
`analyze_topics_from_text`, `find_alternative_articles`); the processor
module itself is an external collaborator here, so it is modelled as a
record of pure functions (`Processor`) over an abstract sentiment type `σ`.
The two orchestrators are translated line by line; each is instrumented
with an event trace recording every processor call, so that sequencing
properties ("fetch happens before scoring", "the fetch is not retried")
become statements about the trace.
-/

namespace AltNews

/-- A topic group as consumed by the view layer: `topic['keywords']`
(streamlit_app.py line 209). -/
structure Topic where
  keywords : List String
deriving Repr, DecidableEq

/-- A candidate article dictionary as produced by
`processor.find_alternative_articles` and consumed by both front-ends:
keys `title`, `url`, `source`, `publishedAt` (streamlit_app.py lines
217-220), with `sentiment` and `description` added by mutation during
enrichment (app.py line 55, streamlit_app.py lines 181-182). -/
structure Candidate (σ : Type) where
  title : String
  url : String
  source : String
  publishedAt : String
  sentiment : Option σ := none
  description : Option String := none
deriving Repr, DecidableEq

/-- The base (pre-enrichment) fields of a candidate dictionary:
title, url, source, publish timestamp. -/
def candidateBase {σ : Type} (a : Candidate σ) : String × String × String × String :=
  (a.title, a.url, a.source, a.publishedAt)

/-- The four processor operations both orchestrators call, modelled as an
abstract record of pure functions. `fetch_article_text` returns the pair
`(title, raw_text)`; sentiment scores are values of an abstract type `σ`. -/
structure Processor (σ : Type) where
  fetch_article_text : String → String × String
  analyze_sentiment_from_text : String → σ
  analyze_topics_from_text : String → List Topic
  find_alternative_articles : List Topic → String → List (Candidate σ)

/-- One processor call, recorded in an execution trace. -/
inductive Event where
  | fetch (url : String)
  | score (text : String)
  | topicsOf (text : String)
  | findAlts (topics : List Topic) (text : String)
deriving Repr, DecidableEq

/-- The error message rendered by the Flask route on a primary-fetch
failure (app.py line 37). -/
def flask_error_message : String :=
  "Error: Could not fetch or parse the article from the initial URL. The website might be blocking automated requests or requires JavaScript to load its content."

/-- The error message shown by the Streamlit front-end on a primary-fetch
failure (streamlit_app.py line 145). -/
def streamlit_error_message : String :=
  "Could not fetch the article. The URL might be invalid, or the site may be blocking access."

/-- Outcome of the Flask `analyze` route: either the error page
(app.py line 38) or the results page with its four template arguments
(app.py lines 61-67). -/
inductive FlaskResponse (σ : Type) where
  | errorPage (error_message : String)
  | resultsPage (article_title : String) (sentiment : σ) (topics : List Topic)
      (alternative_articles : List (Candidate σ))
deriving Repr, DecidableEq

/-- Whether a Flask response is the error page. -/
def FlaskResponse.isErrorPage {σ : Type} : FlaskResponse σ → Bool
  | .errorPage _ => true
  | .resultsPage _ _ _ _ => false

/-- The `original_article` session dictionary built by the Streamlit
processing stage (streamlit_app.py line 157). -/
structure OriginalArticle (σ : Type) where
  title : String
  sentiment : σ
deriving Repr, DecidableEq

/-- Outcome of the Streamlit processing stage: either the error screen
followed by `st.stop()` (streamlit_app.py lines 144-148) or the session
state handed to the results stage (lines 157-189). -/
inductive StreamlitOutcome (σ : Type) where
  | fetchError (message : String)
  | results (original_article : OriginalArticle σ) (topics : List Topic)
      (alternatives : List (Candidate σ))
deriving Repr, DecidableEq

/-- Whether a Streamlit processing outcome is the fetch-error screen. -/
def StreamlitOutcome.isFetchError {σ : Type} : StreamlitOutcome σ → Bool
  | .fetchError _ => true
  | .results _ _ _ => false

/-- The enrichment loop of the Flask route (app.py lines 51-58), with its
trace of processor calls: for each candidate, re-fetch its url; if the
fetched text is non-empty, score it, set the candidate's `sentiment` key
and keep it; otherwise drop the candidate. -/
def enrichAlternativesT {σ : Type} (p : Processor σ) :
    List (Candidate σ) → List (Candidate σ) × List Event
  | [] => ([], [])
  | article :: rest =>
    let alt_raw_text := (p.fetch_article_text article.url).2
    let tail := enrichAlternativesT p rest
    if alt_raw_text ≠ "" then
      ({ article with sentiment := some (p.analyze_sentiment_from_text alt_raw_text) } ::
         tail.1,
       Event.fetch article.url :: Event.score alt_raw_text :: tail.2)
    else
      (tail.1, Event.fetch article.url :: tail.2)

/-- The list of successful alternatives produced by the Flask enrichment
loop (app.py variable `successful_alternatives`). -/
def enrichAlternatives {σ : Type} (p : Processor σ) (l : List (Candidate σ)) :
    List (Candidate σ) :=
  (enrichAlternativesT p l).1

/-- The enrichment loop of the Streamlit processing stage
(streamlit_app.py lines 178-183): identical to the Flask loop except that
a kept candidate additionally gets a `description` key holding the first
250 characters of the re-fetched text followed by `"..."` (line 182). -/
def processAlternativesT {σ : Type} (p : Processor σ) :
    List (Candidate σ) → List (Candidate σ) × List Event
  | [] => ([], [])
  | article :: rest =>
    let alt_raw_text := (p.fetch_article_text article.url).2
    let tail := processAlternativesT p rest
    if alt_raw_text ≠ "" then
      ({ article with
           sentiment := some (p.analyze_sentiment_from_text alt_raw_text),
           description := some (alt_raw_text.take 250 ++ "...") } :: tail.1,
       Event.fetch article.url :: Event.score alt_raw_text :: tail.2)
    else
      (tail.1, Event.fetch article.url :: tail.2)

/-- The list `processed_alternatives` of the Streamlit processing stage. -/
def processAlternatives {σ : Type} (p : Processor σ) (l : List (Candidate σ)) :
    List (Candidate σ) :=
  (processAlternativesT p l).1

/-- The Flask `analyze` route (app.py lines 25-67), with its trace of
processor calls. Steps, in source order: fetch the primary article
(line 33); if `raw_text` is falsy render the error page (lines 36-38);
otherwise score sentiment (line 41), extract topics (line 42), find
alternatives passing topics and the raw text (line 46), run the enrichment
loop guarded by `if alternative_articles:` (lines 49-58), and render the
results page (lines 61-67). -/
def analyzeT {σ : Type} (p : Processor σ) (url : String) :
    FlaskResponse σ × List Event :=
  let fetched := p.fetch_article_text url
  let title := fetched.1
  let raw_text := fetched.2
  if raw_text = "" then
    (.errorPage flask_error_message, [Event.fetch url])
  else
    let sentiment := p.analyze_sentiment_from_text raw_text
    let topics := p.analyze_topics_from_text raw_text
    let alternative_articles := p.find_alternative_articles topics raw_text
    let enriched :=
      if alternative_articles.isEmpty then ([], [])
      else enrichAlternativesT p alternative_articles
    (.resultsPage title sentiment topics enriched.1,
     Event.fetch url :: Event.score raw_text :: Event.topicsOf raw_text ::
       Event.findAlts topics raw_text :: enriched.2)

/-- The Streamlit processing stage (streamlit_app.py lines 129-196), with
its trace of processor calls. Steps, in source order: fetch the primary
article (line 141); if `raw_text` is falsy show the error and stop
(lines 144-148); otherwise build `original_article` with the sentiment
(line 157), extract topics (line 158), find alternatives (line 167), run
the enrichment loop guarded by `if alternatives:` (lines 176-183), and
hand the session state to the results stage. -/
def processingStageT {σ : Type} (p : Processor σ) (url : String) :
    StreamlitOutcome σ × List Event :=
  let fetched := p.fetch_article_text url
  let title := fetched.1
  let raw_text := fetched.2
  if raw_text = "" then
    (.fetchError streamlit_error_message, [Event.fetch url])
  else
    let original_article : OriginalArticle σ :=
      { title := title, sentiment := p.analyze_sentiment_from_text raw_text }
    let topics := p.analyze_topics_from_text raw_text
    let alternatives := p.find_alternative_articles topics raw_text
    let processed :=
      if alternatives.isEmpty then ([], [])
      else processAlternativesT p alternatives
    (.results original_article topics processed.1,
     Event.fetch url :: Event.score raw_text :: Event.topicsOf raw_text ::
       Event.findAlts topics raw_text :: processed.2)

/-- One widget emitted by the Streamlit results stage. -/
inductive RenderItem (σ : Type) where
  | pageTitle (text : String)
  | header (text : String)
  | subheader (text : String)
  | sentimentCard (score : σ)
  | info (text : String)
  | warning (text : String)
  | caption (text : String)
  | articleLink (url : String) (publishedAt : String)
  | button (label : String)
deriving Repr, DecidableEq

/-- `display_sentiment_card` (streamlit_app.py lines 64-95): a falsy
score renders an info message, otherwise the colored score card. -/
def display_sentiment_card {σ : Type} : Option σ → List (RenderItem σ)
  | none => [RenderItem.info "Sentiment could not be analyzed."]
  | some s => [RenderItem.sentimentCard s]

/-- The widgets rendered for one alternative article
(streamlit_app.py lines 215-221): subheader `[source] title`, the caption
only when `article.get('description')` is truthy, the link line, and the
sentiment card. -/
def renderAlternative {σ : Type} (article : Candidate σ) : List (RenderItem σ) :=
  [RenderItem.subheader ("[" ++ article.source ++ "] " ++ article.title)] ++
  (match article.description with
   | some d => if d ≠ "" then [RenderItem.caption d] else []
   | none => []) ++
  [RenderItem.articleLink article.url article.publishedAt] ++
  display_sentiment_card article.sentiment

/-- The Streamlit results stage (streamlit_app.py lines 197-227) as the
sequence of widgets it emits: original-article card, the topics section
with its empty-state warning (lines 207-211), the alternatives section
with its empty-state info notice (lines 214-223), and the restart
button. -/
def renderResultsStage {σ : Type} (orig : OriginalArticle σ) (topics : List Topic)
    (alternatives : List (Candidate σ)) : List (RenderItem σ) :=
  [RenderItem.pageTitle "📊 Analysis Results",
   RenderItem.header "Original Article Analysis",
   RenderItem.subheader orig.title] ++
  display_sentiment_card (some orig.sentiment) ++
  [RenderItem.header "Extracted Topics"] ++
  (if topics.isEmpty then
     [RenderItem.warning "No distinct topics could be extracted from this article."]
   else
     topics.map fun topic => RenderItem.info (String.intercalate ", " topic.keywords)) ++
  [RenderItem.header "Alternative Articles"] ++
  (if alternatives.isEmpty then
     [RenderItem.info "No alternative articles could be found for the extracted topics."]
   else
     alternatives.foldr (fun article acc => renderAlternative article ++ acc) []) ++
  [RenderItem.button "Analyze Another Article"]

/-! ## Concrete processors used by the witness theorems -/

/-- A processor whose every fetch returns an empty body. -/
def pFail : Processor Nat where
  fetch_article_text := fun _ => ("Title", "")
  analyze_sentiment_from_text := fun _ => 7
  analyze_topics_from_text := fun _ => [⟨["k1", "k2"]⟩]
  find_alternative_articles := fun _ _ =>
    [{ title := "alt", url := "u2", source := "s", publishedAt := "d" }]

/-- The same processor except that every fetch returns a one-character
body, i.e. legitimately short content. -/
def pShort : Processor Nat :=
  { pFail with fetch_article_text := fun _ => ("Title", " ") }

/-! ## Helper lemmas about the enrichment loops -/

/-- The Flask enrichment loop keeps exactly the candidates whose re-fetch
is non-empty, in order, adding the sentiment of the re-fetched text. -/
theorem enrichAlternatives_eq_filterMap {σ : Type} (p : Processor σ)
    (l : List (Candidate σ)) :
    enrichAlternatives p l =
      (l.filter fun a => (p.fetch_article_text a.url).2 ≠ "").map
        (fun a =>
          { a with
            sentiment := some (p.analyze_sentiment_from_text (p.fetch_article_text a.url).2) }) := by
  induction l with
  | nil => rfl
  | cons a rest ih =>
    by_cases hfa : (p.fetch_article_text a.url).2 = "" <;>
      simp [enrichAlternatives, enrichAlternativesT, hfa, List.filter_cons] at ih ⊢ <;>
      exact ih

/-- The Streamlit enrichment loop keeps exactly the candidates whose
re-fetch is non-empty, in order, adding sentiment and description. -/
theorem processAlternatives_eq_filterMap {σ : Type} (p : Processor σ)
    (l : List (Candidate σ)) :
    processAlternatives p l =
      (l.filter fun a => (p.fetch_article_text a.url).2 ≠ "").map
        (fun a =>
          { a with
            sentiment := some (p.analyze_sentiment_from_text (p.fetch_article_text a.url).2),
            description := some ((p.fetch_article_text a.url).2.take 250 ++ "...") }) := by
  induction l with
  | nil => rfl
  | cons a rest ih =>
    by_cases hfa : (p.fetch_article_text a.url).2 = "" <;>
      simp [processAlternatives, processAlternativesT, hfa, List.filter_cons] at ih ⊢ <;>
      exact ih

/-- Every text scored during the Flask enrichment loop is non-empty. -/
theorem score_mem_enrichAlternativesT {σ : Type} (p : Processor σ) :
    ∀ (l : List (Candidate σ)) (t : String),
      Event.score t ∈ (enrichAlternativesT p l).2 → t ≠ "" := by
  intro l
  induction l with
  | nil => intro t h; simp [enrichAlternativesT] at h
  | cons a rest ih =>
    intro t h
    by_cases hfa : (p.fetch_article_text a.url).2 = "" <;>
      simp [enrichAlternativesT, hfa] at h
    · exact ih t h
    · rcases h with h | h
      · rw [h]; exact hfa
      · exact ih t h

/-- Every text scored during the Streamlit enrichment loop is non-empty. -/
theorem score_mem_processAlternativesT {σ : Type} (p : Processor σ) :
    ∀ (l : List (Candidate σ)) (t : String),
      Event.score t ∈ (processAlternativesT p l).2 → t ≠ "" := by
  intro l
  induction l with
  | nil => intro t h; simp [processAlternativesT] at h
  | cons a rest ih =>
    intro t h
    by_cases hfa : (p.fetch_article_text a.url).2 = "" <;>
      simp [processAlternativesT, hfa] at h
    · exact ih t h
    · rcases h with h | h
      · rw [h]; exact hfa
      · exact ih t h

/-- The `if alternatives: ...` guard around the Flask enrichment loop is
redundant: the loop over an empty list already produces nothing. -/
theorem enrich_guard_redundant {σ : Type} (p : Processor σ) (l : List (Candidate σ)) :
    (if l.isEmpty then (([], []) : List (Candidate σ) × List Event)
     else enrichAlternativesT p l) = enrichAlternativesT p l := by
  cases l <;> simp [enrichAlternativesT]

/-- The `if alternatives: ...` guard around the Streamlit enrichment loop
is redundant: the loop over an empty list already produces nothing. -/
theorem process_guard_redundant {σ : Type} (p : Processor σ) (l : List (Candidate σ)) :
    (if l.isEmpty then (([], []) : List (Candidate σ) × List Event)
     else processAlternativesT p l) = processAlternativesT p l := by
  cases l <;> simp [processAlternativesT]

/-- Every candidate kept by the Flask enrichment loop has a url whose
fetch produced non-empty text. -/
theorem mem_enrichAlternatives_fetch_ne {σ : Type} (p : Processor σ)
    (l : List (Candidate σ)) (e : Candidate σ) (he : e ∈ enrichAlternatives p l) :
    (p.fetch_article_text e.url).2 ≠ "" := by
  rw [enrichAlternatives_eq_filterMap] at he
  simp [List.mem_filter] at he
  obtain ⟨b, ⟨_, hb⟩, he⟩ := he
  subst he
  exact hb

/-- Every candidate kept by the Streamlit enrichment loop has a url whose
fetch produced non-empty text. -/
theorem mem_processAlternatives_fetch_ne {σ : Type} (p : Processor σ)
    (l : List (Candidate σ)) (e : Candidate σ) (he : e ∈ processAlternatives p l) :
    (p.fetch_article_text e.url).2 ≠ "" := by
  rw [processAlternatives_eq_filterMap] at he
  simp [List.mem_filter] at he
  obtain ⟨b, ⟨_, hb⟩, he⟩ := he
  subst he
  exact hb

/-! ## Theorems -/

/-- C1: if the primary fetch returns an empty `raw_text`, both
orchestrators fail the whole request with their fetch-error outcome, and
the trace shows that exactly one processor call — the single primary
fetch — happened: no sentiment scoring, no topic extraction, no
alternative search, no enrichment, and no retry of the fetch. -/
theorem primary_fetch_failure_short_circuits {σ : Type} (p : Processor σ) (url : String)
    (h : (p.fetch_article_text url).2 = "") :
    analyzeT p url = (FlaskResponse.errorPage flask_error_message, [Event.fetch url]) ∧
    processingStageT p url =
      (StreamlitOutcome.fetchError streamlit_error_message, [Event.fetch url]) := by
  constructor <;> simp [analyzeT, processingStageT, h]

/-- Witness for C1 at the concrete processor `pFail`. -/
theorem primary_fetch_failure_short_circuits_witness :
    analyzeT pFail "http://x" =
      (FlaskResponse.errorPage flask_error_message, [Event.fetch "http://x"]) ∧
    processingStageT pFail "http://x" =
      (StreamlitOutcome.fetchError streamlit_error_message, [Event.fetch "http://x"]) :=
  primary_fetch_failure_short_circuits pFail "http://x" rfl

/-- C2: both enrichment loops return exactly the candidates whose
re-fetch produced non-empty text, in their original relative order (each
with its annotations filled in); the base fields of the returned list
form a sublist of the base fields of the input candidate list. -/
theorem enriched_list_is_ordered_sublist {σ : Type} (p : Processor σ)
    (cands : List (Candidate σ)) :
    enrichAlternatives p cands =
      (cands.filter fun a => (p.fetch_article_text a.url).2 ≠ "").map
        (fun a =>
          { a with
            sentiment := some (p.analyze_sentiment_from_text (p.fetch_article_text a.url).2) }) ∧
    processAlternatives p cands =
      (cands.filter fun a => (p.fetch_article_text a.url).2 ≠ "").map
        (fun a =>
          { a with
            sentiment := some (p.analyze_sentiment_from_text (p.fetch_article_text a.url).2),
            description := some ((p.fetch_article_text a.url).2.take 250 ++ "...") }) ∧
    ((enrichAlternatives p cands).map candidateBase).Sublist (cands.map candidateBase) ∧
    ((processAlternatives p cands).map candidateBase).Sublist (cands.map candidateBase) := by
  refine ⟨enrichAlternatives_eq_filterMap p cands,
    processAlternatives_eq_filterMap p cands, ?_, ?_⟩
  · rw [enrichAlternatives_eq_filterMap p cands, List.map_map]
    have hbase : (candidateBase ∘ fun a : Candidate σ =>
        { a with
          sentiment := some (p.analyze_sentiment_from_text (p.fetch_article_text a.url).2) }) =
        candidateBase := rfl
    rw [hbase]
    exact (List.filter_sublist _).map candidateBase
  · rw [processAlternatives_eq_filterMap p cands, List.map_map]
    have hbase : (candidateBase ∘ fun a : Candidate σ =>
        { a with
          sentiment := some (p.analyze_sentiment_from_text (p.fetch_article_text a.url).2),
          description := some ((p.fetch_article_text a.url).2.take 250 ++ "...") }) =
        candidateBase := rfl
    rw [hbase]
    exact (List.filter_sublist _).map candidateBase

/-- C3 counterexample: the orchestrators decide fetch failure exactly by
the emptiness of `raw_text`: a processor returning an empty body is routed
to the error outcome, while the identical processor returning a
one-character body is not — there is no failure indicator distinct from
the empty string. -/
theorem fetch_failure_indicator_counterexample :
    (pFail.fetch_article_text "u").2 = "" ∧
    (analyzeT pFail "u").1 = FlaskResponse.errorPage flask_error_message ∧
    (processingStageT pFail "u").1 = StreamlitOutcome.fetchError streamlit_error_message ∧
    (pShort.fetch_article_text "u").2 ≠ "" ∧
    (analyzeT pShort "u").1.isErrorPage = false ∧
    (processingStageT pShort "u").1.isFetchError = false := by
  refine ⟨rfl, rfl, rfl, by decide, by decide, by decide⟩

/-- C3 amended: in both orchestrators the request-level fetch-error
outcome occurs exactly when the primary fetch's `raw_text` is the empty
string — the empty-string test is the failure indicator. -/
theorem fetch_failure_decided_by_emptiness {σ : Type} (p : Processor σ) (url : String) :
    ((analyzeT p url).1.isErrorPage = true ↔ (p.fetch_article_text url).2 = "") ∧
    ((processingStageT p url).1.isFetchError = true ↔ (p.fetch_article_text url).2 = "") := by
  by_cases h : (p.fetch_article_text url).2 = "" <;>
    simp [analyzeT, processingStageT, h, FlaskResponse.isErrorPage,
      StreamlitOutcome.isFetchError]

/-- Witness for the amended C3 at the concrete processor `pFail`. -/
theorem fetch_failure_decided_by_emptiness_witness :
    ((analyzeT pFail "u").1.isErrorPage = true ↔ (pFail.fetch_article_text "u").2 = "") ∧
    ((processingStageT pFail "u").1.isFetchError = true ↔
      (pFail.fetch_article_text "u").2 = "") :=
  fetch_failure_decided_by_emptiness pFail "u"

/-- A processor whose fetch fails only at the url "bad". -/
def pMixed : Processor Nat where
  fetch_article_text := fun u =>
    if u = "bad" then ("B", "") else ("Title of " ++ u, "body of " ++ u)
  analyze_sentiment_from_text := fun t => t.length
  analyze_topics_from_text := fun _ => [⟨["k1", "k2"]⟩]
  find_alternative_articles := fun _ _ =>
    [{ title := "a1", url := "good1", source := "s1", publishedAt := "d1" },
     { title := "a2", url := "bad", source := "s2", publishedAt := "d2" },
     { title := "a3", url := "good2", source := "s3", publishedAt := "d3" }]

/-- A candidate whose re-fetch under `pMixed` succeeds. -/
def cGood1 : Candidate Nat :=
  { title := "a1", url := "good1", source := "s1", publishedAt := "d1" }

/-- A candidate whose re-fetch under `pMixed` fails. -/
def cBad : Candidate Nat :=
  { title := "a2", url := "bad", source := "s2", publishedAt := "d2" }

/-- Another candidate whose re-fetch under `pMixed` succeeds. -/
def cGood2 : Candidate Nat :=
  { title := "a3", url := "good2", source := "s3", publishedAt := "d3" }

/-- C4: a candidate whose re-fetch returns empty text is dropped and the
rest of the batch is unaffected: removing it from the input changes
nothing, it never appears among the enriched articles (in either
front-end), later candidates are still processed, and the request as a
whole — given a successful primary fetch — still reaches the results
outcome. -/
theorem failed_candidate_dropped_batch_survives {σ : Type} (p : Processor σ)
    (url : String) (pre post : List (Candidate σ)) (a : Candidate σ)
    (hfail : (p.fetch_article_text a.url).2 = "")
    (hprimary : (p.fetch_article_text url).2 ≠ "") :
    enrichAlternatives p (pre ++ a :: post) = enrichAlternatives p (pre ++ post) ∧
    processAlternatives p (pre ++ a :: post) = processAlternatives p (pre ++ post) ∧
    (∀ e ∈ enrichAlternatives p (pre ++ a :: post), e.url ≠ a.url) ∧
    (∀ e ∈ processAlternatives p (pre ++ a :: post), e.url ≠ a.url) ∧
    (analyzeT p url).1.isErrorPage = false ∧
    (processingStageT p url).1.isFetchError = false := by
  have hfil : (pre ++ a :: post).filter
        (fun b : Candidate σ => (p.fetch_article_text b.url).2 ≠ "") =
      (pre ++ post).filter
        (fun b : Candidate σ => (p.fetch_article_text b.url).2 ≠ "") := by
    simp [List.filter_append, List.filter_cons, hfail]
  refine ⟨?_, ?_, ?_, ?_, ?_, ?_⟩
  · rw [enrichAlternatives_eq_filterMap, enrichAlternatives_eq_filterMap, hfil]
  · rw [processAlternatives_eq_filterMap, processAlternatives_eq_filterMap, hfil]
  · intro e he hurl
    exact mem_enrichAlternatives_fetch_ne p _ e he (hurl ▸ hfail)
  · intro e he hurl
    exact mem_processAlternatives_fetch_ne p _ e he (hurl ▸ hfail)
  · simp [analyzeT, hprimary, FlaskResponse.isErrorPage]
  · simp [processingStageT, hprimary, StreamlitOutcome.isFetchError]

/-- Witness for C4 at the concrete processor `pMixed`, where the middle
candidate `cBad` fails its re-fetch. -/
theorem failed_candidate_dropped_batch_survives_witness :
    enrichAlternatives pMixed ([cGood1] ++ cBad :: [cGood2]) =
      enrichAlternatives pMixed ([cGood1] ++ [cGood2]) ∧
    processAlternatives pMixed ([cGood1] ++ cBad :: [cGood2]) =
      processAlternatives pMixed ([cGood1] ++ [cGood2]) ∧
    (∀ e ∈ enrichAlternatives pMixed ([cGood1] ++ cBad :: [cGood2]), e.url ≠ cBad.url) ∧
    (∀ e ∈ processAlternatives pMixed ([cGood1] ++ cBad :: [cGood2]), e.url ≠ cBad.url) ∧
    (analyzeT pMixed "main").1.isErrorPage = false ∧
    (processingStageT pMixed "main").1.isFetchError = false :=
  failed_candidate_dropped_batch_survives pMixed "main" [cGood1] [cGood2] cBad
    (by decide) (by decide)

/-- C5: on every execution path of either orchestrator, the sentiment
scorer is invoked only on non-empty text: every `score` event in the
trace carries non-empty text. -/
theorem sentiment_scored_only_on_nonempty_text {σ : Type} (p : Processor σ)
    (url t : String)
    (h : Event.score t ∈ (analyzeT p url).2 ∨ Event.score t ∈ (processingStageT p url).2) :
    t ≠ "" := by
  by_cases hraw : (p.fetch_article_text url).2 = ""
  · rcases h with h | h <;> simp [analyzeT, processingStageT, hraw] at h
  · rcases h with h | h
    · simp [analyzeT, hraw, enrich_guard_redundant] at h
      rcases h with h | h
      · rw [h]; exact hraw
      · exact score_mem_enrichAlternativesT p _ t h
    · simp [processingStageT, hraw, process_guard_redundant] at h
      rcases h with h | h
      · rw [h]; exact hraw
      · exact score_mem_processAlternativesT p _ t h

/-- Witness for C5: under `pShort` the primary text `" "` is scored, and
it is indeed non-empty. -/
theorem sentiment_scored_only_on_nonempty_text_witness :
    Event.score " " ∈ (analyzeT pShort "u").2 ∧ (" " : String) ≠ "" :=
  ⟨by decide, sentiment_scored_only_on_nonempty_text pShort "u" " " (Or.inl (by decide))⟩

/-- C6: whenever the primary fetch succeeds, both orchestrators perform
the pipeline calls in the fixed order fetch, sentiment score, topic
extraction, find-alternatives (applied to the extracted topics and the
primary raw text), and only afterwards the per-alternative fetch-and-score
steps of the enrichment loop. -/
theorem pipeline_call_order {σ : Type} (p : Processor σ) (url : String)
    (h : (p.fetch_article_text url).2 ≠ "") :
    (analyzeT p url).2 =
      Event.fetch url ::
        Event.score (p.fetch_article_text url).2 ::
        Event.topicsOf (p.fetch_article_text url).2 ::
        Event.findAlts (p.analyze_topics_from_text (p.fetch_article_text url).2)
          (p.fetch_article_text url).2 ::
        (enrichAlternativesT p
          (p.find_alternative_articles
            (p.analyze_topics_from_text (p.fetch_article_text url).2)
            (p.fetch_article_text url).2)).2 ∧
    (processingStageT p url).2 =
      Event.fetch url ::
        Event.score (p.fetch_article_text url).2 ::
        Event.topicsOf (p.fetch_article_text url).2 ::
        Event.findAlts (p.analyze_topics_from_text (p.fetch_article_text url).2)
          (p.fetch_article_text url).2 ::
        (processAlternativesT p
          (p.find_alternative_articles
            (p.analyze_topics_from_text (p.fetch_article_text url).2)
            (p.fetch_article_text url).2)).2 := by
  constructor <;>
    simp [analyzeT, processingStageT, h, enrich_guard_redundant, process_guard_redundant]

/-- Witness for C6 at the concrete processor `pShort`. -/
theorem pipeline_call_order_witness :
    (analyzeT pShort "u").2 =
      Event.fetch "u" ::
        Event.score (pShort.fetch_article_text "u").2 ::
        Event.topicsOf (pShort.fetch_article_text "u").2 ::
        Event.findAlts (pShort.analyze_topics_from_text (pShort.fetch_article_text "u").2)
          (pShort.fetch_article_text "u").2 ::
        (enrichAlternativesT pShort
          (pShort.find_alternative_articles
            (pShort.analyze_topics_from_text (pShort.fetch_article_text "u").2)
            (pShort.fetch_article_text "u").2)).2 ∧
    (processingStageT pShort "u").2 =
      Event.fetch "u" ::
        Event.score (pShort.fetch_article_text "u").2 ::
        Event.topicsOf (pShort.fetch_article_text "u").2 ::
        Event.findAlts (pShort.analyze_topics_from_text (pShort.fetch_article_text "u").2)
          (pShort.fetch_article_text "u").2 ::
        (processAlternativesT pShort
          (pShort.find_alternative_articles
            (pShort.analyze_topics_from_text (pShort.fetch_article_text "u").2)
            (pShort.fetch_article_text "u").2)).2 :=
  pipeline_call_order pShort "u" (by decide)

/-- Taking at least the whole length of a string returns the string. -/
theorem string_take_of_length_le (s : String) (n : Nat) (h : s.length ≤ n) :
    s.take n = s := by
  rw [String.take_eq]
  simp only [String.length] at h
  rw [List.take_of_length_le h]

/-- C7: promotion mutates a kept candidate only by adding annotations:
in the Flask loop only `sentiment` is set (the `description` field is
left as it was), in the Streamlit loop `sentiment` and `description` are
set; in both, the promoted candidate's title, url, source and publish
timestamp are exactly those of a candidate of the input list. -/
theorem promotion_preserves_base_fields {σ : Type} (p : Processor σ)
    (cands : List (Candidate σ)) (e : Candidate σ) :
    (e ∈ enrichAlternatives p cands →
      ∃ a ∈ cands, candidateBase e = candidateBase a ∧
        e.description = a.description ∧
        e.sentiment = some (p.analyze_sentiment_from_text (p.fetch_article_text a.url).2)) ∧
    (e ∈ processAlternatives p cands →
      ∃ a ∈ cands, candidateBase e = candidateBase a ∧
        e.description = some ((p.fetch_article_text a.url).2.take 250 ++ "...") ∧
        e.sentiment = some (p.analyze_sentiment_from_text (p.fetch_article_text a.url).2)) := by
  refine ⟨fun he => ?_, fun he => ?_⟩
  · rw [enrichAlternatives_eq_filterMap] at he
    simp [List.mem_filter] at he
    obtain ⟨b, ⟨hb, _⟩, he⟩ := he
    subst he
    exact ⟨b, hb, rfl, rfl, rfl⟩
  · rw [processAlternatives_eq_filterMap] at he
    simp [List.mem_filter] at he
    obtain ⟨b, ⟨hb, _⟩, he⟩ := he
    subst he
    exact ⟨b, hb, rfl, rfl, rfl⟩

/-- The enrichment of `cGood1` under `pMixed`, as produced by the Flask
loop. -/
def eGood1Flask : Candidate Nat :=
  { cGood1 with
    sentiment :=
      some (pMixed.analyze_sentiment_from_text (pMixed.fetch_article_text cGood1.url).2) }

/-- Witness for C7 at the concrete processor `pMixed` and a singleton
candidate list. -/
theorem promotion_preserves_base_fields_witness :
    (eGood1Flask ∈ enrichAlternatives pMixed [cGood1] →
      ∃ a ∈ [cGood1], candidateBase eGood1Flask = candidateBase a ∧
        eGood1Flask.description = a.description ∧
        eGood1Flask.sentiment =
          some (pMixed.analyze_sentiment_from_text (pMixed.fetch_article_text a.url).2)) ∧
    (eGood1Flask ∈ processAlternatives pMixed [cGood1] →
      ∃ a ∈ [cGood1], candidateBase eGood1Flask = candidateBase a ∧
        eGood1Flask.description =
          some ((pMixed.fetch_article_text a.url).2.take 250 ++ "...") ∧
        eGood1Flask.sentiment =
          some (pMixed.analyze_sentiment_from_text (pMixed.fetch_article_text a.url).2)) :=
  promotion_preserves_base_fields pMixed [cGood1] eGood1Flask

/-- C8: the Streamlit results stage is a total rendering function, and
empty topic and alternative lists produce the dedicated empty-state
widgets: a warning when no topics were extracted, an info notice when no
alternatives survived enrichment — never an empty (crashed) render. -/
theorem empty_state_rendering {σ : Type} (orig : OriginalArticle σ)
    (topics : List Topic) (alternatives : List (Candidate σ)) :
    (topics = [] →
      RenderItem.warning "No distinct topics could be extracted from this article."
        ∈ renderResultsStage orig topics alternatives) ∧
    (alternatives = [] →
      RenderItem.info "No alternative articles could be found for the extracted topics."
        ∈ renderResultsStage orig topics alternatives) ∧
    renderResultsStage orig topics alternatives ≠ [] := by
  refine ⟨fun h => ?_, fun h => ?_, ?_⟩
  · subst h; simp [renderResultsStage, display_sentiment_card]
  · subst h; simp [renderResultsStage, display_sentiment_card]
  · simp [renderResultsStage, display_sentiment_card]

/-- Witness for C8 at a concrete original article and empty lists. -/
theorem empty_state_rendering_witness :
    (([] : List Topic) = [] →
      RenderItem.warning "No distinct topics could be extracted from this article."
        ∈ renderResultsStage (σ := Nat) ⟨"T", 0⟩ [] []) ∧
    (([] : List (Candidate Nat)) = [] →
      RenderItem.info "No alternative articles could be found for the extracted topics."
        ∈ renderResultsStage (σ := Nat) ⟨"T", 0⟩ [] []) ∧
    renderResultsStage (σ := Nat) ⟨"T", 0⟩ [] [] ≠ [] :=
  empty_state_rendering ⟨"T", 0⟩ [] []

/-- C9: given the same processor results, the Streamlit enrichment loop
keeps exactly the same candidates with the same sentiments as the Flask
loop, differing only in that each kept candidate additionally receives
its `description` field. -/
theorem streamlit_enrichment_refines_flask {σ : Type} (p : Processor σ)
    (cands : List (Candidate σ)) :
    processAlternatives p cands =
      (enrichAlternatives p cands).map
        (fun a =>
          { a with
            description := some ((p.fetch_article_text a.url).2.take 250 ++ "...") }) := by
  rw [processAlternatives_eq_filterMap, enrichAlternatives_eq_filterMap, List.map_map]
  rfl

/-- C10: every alternative kept by the Streamlit loop carries as
description exactly the first 250 characters of its re-fetched text with
the three-character suffix "..." appended — unconditionally, so for a
text of at most 250 characters the description is the whole text plus
the suffix. -/
theorem description_is_first_250_chars_with_ellipsis {σ : Type} (p : Processor σ)
    (cands : List (Candidate σ)) (e : Candidate σ)
    (he : e ∈ processAlternatives p cands) :
    e.description = some ((p.fetch_article_text e.url).2.take 250 ++ "...") ∧
    ((p.fetch_article_text e.url).2.length ≤ 250 →
      e.description = some ((p.fetch_article_text e.url).2 ++ "...")) := by
  rw [processAlternatives_eq_filterMap] at he
  simp [List.mem_filter] at he
  obtain ⟨b, ⟨_, _⟩, he⟩ := he
  subst he
  refine ⟨rfl, fun hlen => ?_⟩
  simp only
  rw [string_take_of_length_le _ 250 hlen]

/-- The enrichment of `cGood1` under `pMixed`, as produced by the
Streamlit loop. -/
def eGood1Streamlit : Candidate Nat :=
  { cGood1 with
    sentiment :=
      some (pMixed.analyze_sentiment_from_text (pMixed.fetch_article_text cGood1.url).2),
    description := some ((pMixed.fetch_article_text cGood1.url).2.take 250 ++ "...") }

set_option maxRecDepth 100000 in
/-- Witness for C10: under `pMixed` the kept candidate `cGood1` has the
short re-fetched text "body of good1", whose description is that whole
text followed by "...". -/
theorem description_is_first_250_chars_with_ellipsis_witness :
    eGood1Streamlit ∈ processAlternatives pMixed [cGood1] ∧
    (eGood1Streamlit.description =
      some ((pMixed.fetch_article_text eGood1Streamlit.url).2.take 250 ++ "...") ∧
    ((pMixed.fetch_article_text eGood1Streamlit.url).2.length ≤ 250 →
      eGood1Streamlit.description =
        some ((pMixed.fetch_article_text eGood1Streamlit.url).2 ++ "..."))) :=
  ⟨by decide,
   description_is_first_250_chars_with_ellipsis pMixed [cGood1] eGood1Streamlit (by decide)⟩

end AltNews
